import Mathlib

/-!
Verification of the conversation-orchestration core of the SKN19-3rd-3Team
repository.  The Python sources under scripts/ and chatbot/ are shallowly
embedded below: pure control logic is translated into executable Lean
definitions, and the external collaborators (the OpenAI chat model, the
Pinecone vector index, the langgraph streaming loop, the wall clock) are
passed in as explicit function parameters or values.  Timestamps are modeled
as integers counting seconds, matching datetime arithmetic on valid isoformat
strings; dictionary-shaped profiles are modeled as partial maps from keys to
string values, with absent keys and falsy values treated as in Python.
A Python call that may raise is modeled as an Except value; a Python
function without an exception handler propagates the error value.
-/

namespace SpecProof

/-! ## Profiles (session_manager.py) -/

/-- A user profile: a partial map from attribute keys to string values.
Mirrors the JSON dictionaries stored by SessionManager; an absent key maps
to none. -/
def Profile : Type := String → Option String

/-- Python truthiness of a .get result: None and the empty string are falsy. -/
def truthyO : Option String → Bool
  | none => false
  | some s => !s.isEmpty

/-- Python a or b for .get results: the first truthy operand, else b. -/
def orT (a b : Option String) : Option String :=
  if truthyO a then a else b

/-- Python dict merge: in braces, current first and profile second, so the
profile value wins for shared keys. -/
def mergeP (current profile : Profile) : Profile :=
  fun k => match profile k with
    | some v => some v
    | none => current k

/-- Python pattern: if v is truthy, set field to v, else leave the map alone. -/
def setIf (m : Profile) (field : String) (v : Option String) : Profile :=
  if truthyO v then (fun k => if k = field then v else m k) else m

/-- The name candidate computed in normalize: profile name or checklist A1. -/
def nameV (profile : Profile) : Option String :=
  orT (profile "name") (profile "A1")

/-- The mobility candidate: profile mobility or checklist A2 or A4. -/
def mobilityV (profile : Profile) : Option String :=
  orT (profile "mobility") (orT (profile "A2") (profile "A4"))

/-- The activity range candidate: profile activity range or A2 or A4. -/
def activityRangeV (profile : Profile) : Option String :=
  orT (profile "activity_range") (orT (profile "A2") (profile "A4"))

/-- The emotion candidate: profile emotion or checklist B1. -/
def emotionV (profile : Profile) : Option String :=
  orT (profile "emotion") (profile "B1")

/-- SessionManager normalize profile (session_manager.py lines 63 to 80):
merge the raw partial profile over the current one, then map checklist
answers into the explicit fields name, mobility, activity range, emotion,
each written only when its candidate value is truthy. -/
def normalize_profile (profile current : Profile) : Profile :=
  let normalized := mergeP current profile
  setIf
    (setIf
      (setIf
        (setIf normalized "name" (nameV profile))
        "mobility" (mobilityV profile))
      "activity_range" (activityRangeV profile))
    "emotion" (emotionV profile)

/-! ## Welcome-back policy (conversation_engine.py, session_manager.py) -/

/-- One stored conversation entry; the stored timestamp field plays no role
in the control logic and is omitted. -/
structure ChatMessage where
  role : String
  content : String
  deriving DecidableEq, Repr

/-- The fixed cooldown constant of ConversationEngine. -/
def WELCOME_COOLDOWN_MINUTES : Int := 30

/-- ConversationEngine should show welcome (conversation_engine.py lines
87 to 99): only in chat mode, only with a stored last visit and a nonempty
history, and only when the elapsed time strictly exceeds the cooldown.
Timestamps are integers in seconds; stored timestamps are produced by
isoformat and parse back successfully, so the parse guard is not modeled. -/
def should_show_welcome (mode : String) (last_visit : Option Int)
    (history : List ChatMessage) (now : Int) : Bool :=
  if mode ≠ "chat" then false
  else
    match last_visit, history with
    | none, _ => false
    | some _, [] => false
    | some t, _ :: _ => decide (now - t > WELCOME_COOLDOWN_MINUTES * 60)

/-- The title string used by the welcome message: the profile name (or the
raw A1 checklist answer) followed by the honorific, or the bare honorific. -/
def welcome_title (profile : Profile) : String :=
  let name := match orT (profile "name") (profile "A1") with
    | some s => s
    | none => ""
  if name ≠ "" then name ++ "님" else "님"

/-- SessionManager get welcome message (session_manager.py lines 105 to 124):
with no last visit, a neutral first-time greeting; otherwise a deterministic
3-way classification of elapsed whole days (floor division, as Python
timedelta days). -/
def get_welcome_message (profile : Profile) (last_visit : Option Int)
    (now : Int) : String :=
  let title := welcome_title profile
  match last_visit with
  | none => "안녕하세요, " ++ title ++ " 오늘은 좀 어떠신가요?"
  | some t =>
    let days_diff := Int.fdiv (now - t) 86400
    if days_diff = 0 then title ++ " 다시 오셨군요. 이야기를 계속 나눠볼까요?"
    else if days_diff = 1 then title ++ " 밤사이 편안하셨나요?"
    else title ++ " 오랜만에 오셨네요!"

/-! ## Turn executor messages and tools (conversation_engine.py) -/

/-- One tool-call request inside a model response: a tool name, an argument
mapping (values abstracted as strings) and the call id. -/
structure ToolCallReq where
  name : String
  args : List (String × String)
  id : String
  deriving DecidableEq, Repr

/-- A model response: reply text plus the ordered tool-call requests.  An
empty request list means a terminal reply. -/
structure AIMsg where
  content : String
  tool_calls : List ToolCallReq
  deriving DecidableEq, Repr

/-- A tool-result message fed back to the model. -/
structure ToolMsg where
  content : String
  tool_call_id : String
  deriving DecidableEq, Repr

/-- The message sequence items exchanged with the model. -/
inductive Msg where
  | system (content : String)
  | human (content : String)
  | ai (m : AIMsg)
  | toolRes (m : ToolMsg)
  deriving DecidableEq, Repr

/-- The active tool registry: tools by name; invoking a tool may raise,
which is modeled by the Except result. -/
def ToolRegistry : Type :=
  String → Option (List (String × String) → Except String String)

/-- One iteration of the tool-execution loop of run info flow
(conversation_engine.py lines 191 to 212): an unknown tool name yields a
synthetic not-found tool result, and a raising tool yields a textual
failure result; in both cases a ToolMsg is produced and nothing raises. -/
def exec_tool_call (tools : ToolRegistry) (call : ToolCallReq) : ToolMsg :=
  match tools call.name with
  | none => ⟨"\x27" ++ call.name ++ "\x27 도구를 찾을 수 없습니다.", call.id⟩
  | some t =>
    match t call.args with
    | .ok result => ⟨result, call.id⟩
    | .error e => ⟨"도구 실행 실패: " ++ e, call.id⟩

/-- The full tool-execution loop over the requested calls, in order. -/
def exec_tool_calls (tools : ToolRegistry) (calls : List ToolCallReq) :
    List ToolMsg :=
  calls.map (exec_tool_call tools)

/-- The static system prompt of the info persona inside run info flow. -/
def info_system_prompt : String :=
  "당신은 정확한 행정 및 장례 정보를 제공하는 전문가입니다. 사실과 절차 위주로, 필요한 경우 제공된 도구를 활용해 검색하세요."

/-- The message sequence of the first model invocation in run info flow. -/
def info_messages (history : List Msg) (text : String) : List Msg :=
  Msg.system info_system_prompt :: (history ++ [Msg.human text])

/-- The message sequence of the second model invocation in run info flow:
the first sequence extended with the model reply and the tool results. -/
def info_messages2 (tools : ToolRegistry) (history : List Msg)
    (text : String) (ai_msg : AIMsg) : List Msg :=
  info_messages history text ++ [Msg.ai ai_msg] ++
    (exec_tool_calls tools ai_msg.tool_calls).map Msg.toolRes

/-- ConversationEngine run info flow (conversation_engine.py lines 162 to
216), the manual single-pass discipline.  The model is an explicit fallible
collaborator; the second component of the result logs the argument of every
model invocation performed, one entry per invoke call site reached. -/
def run_info_flow (llm : List Msg → Except String AIMsg)
    (tools : ToolRegistry) (history : List Msg) (text : String) :
    Except String String × List (List Msg) :=
  match llm (info_messages history text) with
  | .error e => (.error e, [info_messages history text])
  | .ok ai_msg =>
    if ai_msg.tool_calls.isEmpty then
      (.ok ai_msg.content, [info_messages history text])
    else
      match llm (info_messages2 tools history text ai_msg) with
      | .error e =>
        (.error e, [info_messages history text, info_messages2 tools history text ai_msg])
      | .ok final_ai =>
        (.ok final_ai.content,
          [info_messages history text, info_messages2 tools history text ai_msg])

/-! ## Orchestrator entry point (conversation_engine.py lines 101 to 160) -/

/-- The per-user session record kept by the session store. -/
structure Store where
  profile : Profile
  last_visit : Option Int
  history : List ChatMessage

/-- SessionManager add message: append one entry to the history. -/
def add_message (store : Store) (role content : String) : Store :=
  { store with history := store.history ++ [⟨role, content⟩] }

/-- SessionManager update last visit: stamp the current time. -/
def update_last_visit (store : Store) (now : Int) : Store :=
  { store with last_visit := some now }

/-- The last n entries of a list, as a Python negative slice. -/
def lastN {α : Type} (n : Nat) (l : List α) : List α :=
  l.drop (l.length - n)

/-- The trailing-history window passed into a turn: the most recent 8
entries mapped to model messages; other roles are skipped. -/
def history_messages (h : List ChatMessage) : List Msg :=
  (lastN 8 h).filterMap (fun m =>
    if m.role = "user" then some (Msg.human m.content)
    else if m.role = "assistant" then some (Msg.ai ⟨m.content, []⟩)
    else none)

/-- The fixed user-facing error string of the chat-mode outer handler. -/
def GRAPH_ERROR_MESSAGE : String := "시스템 오류가 발생했습니다."

/-- ConversationEngine process user message.  The chat-mode langgraph
streaming loop is an external collaborator whose outcome (the extracted
final reply text, or a raised exception) is the graph outcome parameter;
only that part of the chat branch sits inside the try/except of the
source, so a graph fault is converted to the fixed error string with no
session write, while the info branch calls run info flow with no handler,
so a model fault propagates.  The returned pair is the reply text and the
session record after the turn. -/
def process_user_message (llm : List Msg → Except String AIMsg)
    (tools : ToolRegistry) (graph_outcome : Except String String)
    (now : Int) (store : Store) (text : String) (mode : String) :
    Except String (String × Store) :=
  let welcome_text : Option String :=
    if should_show_welcome mode store.last_visit store.history now then
      some (get_welcome_message store.profile store.last_visit now)
    else none
  if mode = "info" then
    match (run_info_flow llm tools (history_messages store.history) text).1 with
    | .error e => .error e
    | .ok response_text =>
      let s1 := add_message store "user" text
      let s2 := add_message s1 "assistant" response_text
      .ok (response_text, update_last_visit s2 now)
  else
    match graph_outcome with
    | .error _ => .ok (GRAPH_ERROR_MESSAGE, store)
    | .ok response_text =>
      let s1 := add_message store "user" text
      let response_text2 :=
        match welcome_text with
        | some w => if response_text ≠ "" then w ++ "\n\n" ++ response_text else w
        | none => response_text
      let s2 := add_message s1 "assistant" response_text2
      .ok (response_text2, update_last_visit s2 now)

/-! ## Companion tools (recommend_ba.py) -/

/-- Metadata of one activity match returned by the vector index; absent
metadata fields are the empty string, matching Python falsiness. -/
structure ActMeta where
  activity_kr : String
  activity : String
  feeling_tags : String
  deriving DecidableEq, Repr

/-- The activity label: metadata activity kr, else activity, else empty
(the Python or-chain over .get results). -/
def activity_label (m : ActMeta) : String :=
  if m.activity_kr ≠ "" then m.activity_kr else m.activity

/-- The nothing-new sentinel of the activity recommendation tool. -/
def NO_NEW_ACTIVITY_MESSAGE : String :=
  "이미 추천드린 활동과 겹쳐서 새로운 추천을 찾지 못했습니다. 다른 감정이나 상황을 알려주시면 새로 찾아볼게요."

/-- Python separator.join over a list of strings. -/
def join_strings (sep : String) : List String → String
  | [] => ""
  | [x] => x
  | x :: xs => x ++ sep ++ join_strings sep xs

/-- Python substring containment: needle in hay, as contiguous-sublist
containment on the character lists. -/
def str_contains (hay needle : String) : Bool :=
  decide (List.IsInfix needle.data hay.data)

/-- The rendering of one selected activity in the tool output. -/
def format_activity (p : String × String) : String :=
  "- " ++ p.1 ++ " (기대효과: " ++ p.2 ++ ")"

/-- The selection loop of recommend activities tool (recommend_ba.py lines
132 to 140): walk the index matches, skip empty labels and labels already shown
to the user or already taken in this batch, collect the label together with
its feeling tags, and stop after the third selection.  Returns the selected
pairs and the batch-local seen set (a list used for membership only). -/
def select_activities (already : List String) :
    List ActMeta → List String → List (String × String) →
    List (String × String) × List String
  | [], seen, results => (results, seen)
  | m :: ms, seen, results =>
    if activity_label m = "" ∨ activity_label m ∈ already ∨
        activity_label m ∈ seen then
      select_activities already ms seen results
    else
      if 3 ≤ (results ++ [(activity_label m, m.feeling_tags)]).length then
        (results ++ [(activity_label m, m.feeling_tags)],
          activity_label m :: seen)
      else
        select_activities already ms (activity_label m :: seen)
          (results ++ [(activity_label m, m.feeling_tags)])

/-- Recommend activities tool (recommend_ba.py lines 89 to 146), from the
point where the index match list is in hand: select fresh activities, return
the sentinel and leave the seen set untouched when nothing remains, else
return the joined lines and record the batch in the per-user seen set. -/
def recommend_activities_tool (res_matches : List ActMeta)
    (already : List String) : String × List String :=
  if (select_activities already res_matches [] []).1.isEmpty then
    (NO_NEW_ACTIVITY_MESSAGE, already)
  else
    (join_strings "\n"
      (((select_activities already res_matches [] []).1).map format_activity),
     already ++ (select_activities already res_matches [] []).2)

/-- Tag resolution of the tool (recommend_ba.py lines 105 to 110): collect
the tags of every mapping key contained in the emotion text, defaulting to
the calm tag. -/
def resolve_feeling_tags (emotion_map : List (String × List String))
    (user_emotion : String) : List String :=
  let target_tags := emotion_map.foldl
    (fun acc kv =>
      if str_contains user_emotion kv.1 then acc ++ kv.2 else acc) []
  if target_tags.isEmpty then ["평온/이완"] else target_tags

/-- Energy ceiling resolution (recommend_ba.py lines 112 to 115): the last
mapping key contained in the mobility text wins, defaulting to 5. -/
def resolve_energy_limit (mobility_map : List (String × Nat))
    (mobility_status : String) : Nat :=
  mobility_map.foldl
    (fun acc kv =>
      if str_contains mobility_status kv.1 then kv.2 else acc) 5

/-- The semantic-search query string built by the tool. -/
def activities_query (emotion_map : List (String × List String))
    (user_emotion : String) : String :=
  "효과: " ++ join_strings ", " (resolve_feeling_tags emotion_map user_emotion) ++
    " 인 활동"

/-- The match list for one tool call: the external embedding-plus-index
collaborator applied to the query and the resolved energy ceiling (the
index query also fixes top k 8 and the activity type filter). -/
def activities_matches (searchA : String → Nat → List ActMeta)
    (emotion_map : List (String × List String))
    (mobility_map : List (String × Nat)) (user_emotion mobility_status : String) :
    List ActMeta :=
  searchA (activities_query emotion_map user_emotion)
    (resolve_energy_limit mobility_map mobility_status)

/-- The full recommend activities tool pipeline for one call, with the
vector index abstracted: resolve tags and ceiling, search, then select. -/
def recommend_activities_full (searchA : String → Nat → List ActMeta)
    (emotion_map : List (String × List String))
    (mobility_map : List (String × Nat))
    (user_emotion mobility_status : String) (already : List String) :
    String × List String :=
  recommend_activities_tool
    (activities_matches searchA emotion_map mobility_map user_emotion mobility_status)
    already

/-- The labels selected by one tool call against a given seen set. -/
def picked_labels (res_matches : List ActMeta) (already : List String) :
    List String :=
  ((select_activities already res_matches [] []).1).map Prod.fst

/-- Metadata of one empathy-question match returned by the vector index. -/
structure QMeta where
  question_text : String
  intent : String
  deriving DecidableEq, Repr

/-- The rendering of one question in the tool output. -/
def format_question (m : QMeta) : String :=
  "- " ++ m.question_text ++ " (의도: " ++ m.intent ++ ")"

/-- The no-question sentinel of the empathy question tool. -/
def NO_QUESTION_MESSAGE : String := "적절한 질문이 없습니다."

/-- The freshness-filter loop of search empathy questions tool
(recommend_ba.py lines 214 to 221): collect the rendered lines of up to 3
fresh questions, tracking the batch-local seen set of raw question texts. -/
def select_questions (already : List String) :
    List QMeta → List String → List String → List String × List String
  | [], seen, questions => (questions, seen)
  | m :: ms, seen, questions =>
    if m.question_text = "" ∨ m.question_text ∈ already ∨
        m.question_text ∈ seen then
      select_questions already ms seen questions
    else
      if 3 ≤ (questions ++ [format_question m]).length then
        (questions ++ [format_question m], m.question_text :: seen)
      else
        select_questions already ms (m.question_text :: seen)
          (questions ++ [format_question m])

/-- Search empathy questions tool (recommend_ba.py lines 208 to 232), from
the point where the index match list is in hand: the block of questions to
show, falling back to the raw top 3 when the freshness filter removed
every candidate but raw candidates exist. -/
def empathy_questions_output (res_matches : List QMeta)
    (already : List String) : List String :=
  if (select_questions already res_matches [] []).1.isEmpty ∧ ¬res_matches.isEmpty then
    (res_matches.take 3).map format_question
  else (select_questions already res_matches [] []).1

/-- The tool result: the rendered question block (or the no-question
sentinel) paired with the updated asked set, which records exactly the
freshness-filter survivors (the update runs after the fallback choice, so
fallback questions are not recorded). -/
def search_empathy_questions_tool (res_matches : List QMeta)
    (already : List String) : String × List String :=
  (if (empathy_questions_output res_matches already).isEmpty then NO_QUESTION_MESSAGE
   else join_strings "\n" (empathy_questions_output res_matches already),
   already ++ (select_questions already res_matches [] []).2)

/-! ## Information-mode search tools (chatbot_modules/search_info.py) -/

/-- One document returned by a vector-store similarity search. -/
structure Doc where
  page_content : String
  metadata : String
  deriving DecidableEq, Repr

/-- The shape of the region entry of a Pinecone filter dictionary: either a
direct equality value or a dollar-in list. -/
inductive RegionFilter where
  | eq (r : String)
  | inL (rs : List String)
  deriving DecidableEq, Repr

/-- The containment pass of find matching regions (search_info.py lines
104 to 109): both-direction substring check over the canonical list; the
loop returns as soon as n matches are collected, which equals taking the
first n elements of the containment filter. -/
def containment_matches (user_input : String) (region_list : List String)
    (n : Nat) : List String :=
  (region_list.filter (fun region =>
    str_contains region user_input || str_contains user_input region)).take n

/-- Find matching regions (search_info.py lines 100 to 115): the
containment pass first; only when it finds nothing, the similarity pass
(difflib get close matches, an external collaborator passed as the
close function); none when both passes find nothing. -/
def find_matching_regions (close_matches : String → List String → Nat → List String)
    (user_input : String) (region_list : List String) (n : Nat) :
    Option (List String) :=
  if (containment_matches user_input region_list n).isEmpty then
    (if (close_matches user_input region_list n).isEmpty then none
     else some (close_matches user_input region_list n))
  else some (containment_matches user_input region_list n)

/-- The region entry of the search filter built from an optional region
argument (search_info.py lines 134 to 142 and 211 to 221): a falsy region
or no match leaves the search unfiltered by region; exactly one match
yields direct equality; several matches yield a dollar-in list. -/
def region_filter_dict (close_matches : String → List String → Nat → List String)
    (region_list : List String) (n : Nat) (rgn : Option String) :
    Option RegionFilter :=
  match rgn with
  | none => none
  | some r =>
    if r = "" then none
    else
      match find_matching_regions close_matches r region_list n with
      | none => none
      | some [m] => some (.eq m)
      | some ms => some (.inL ms)

/-- The full filter dictionary of the ordinance search: the fixed type
entry plus the optional region entry. -/
structure OrdFilter where
  type : String
  region : Option RegionFilter
  deriving DecidableEq, Repr

/-- Search public funeral ordinance (search_info.py lines 117 to 145): a
similarity search with k 3 against the ordinance store (the external
search collaborator) under the type filter and the resolved region entry
(cap 3, matching k). -/
def search_public_funeral_ordinance
    (searchF : String → Nat → OrdFilter → List Doc)
    (close_matches : String → List String → Nat → List String)
    (region_list : List String) (query : String) (region : Option String) :
    List Doc :=
  searchF query 3
    ⟨"Public_Funeral_Ordinance", region_filter_dict close_matches region_list 3 region⟩

/-- One per-region sub-search of search funeral facilities (search_info.py
lines 209 to 234): resolve the region entry with cap 100, run the search
with the per-region budget k, and contribute nothing when the search
raises (the try/except continue). -/
def facility_sub_search
    (searchF : String → Nat → Option RegionFilter → Except String (List Doc))
    (close_matches : String → List String → Nat → List String)
    (all_regions : List String) (query : String) (k : Nat)
    (rgn : Option String) : List Doc :=
  match searchF query k (region_filter_dict close_matches all_regions 100 rgn) with
  | .ok results => results
  | .error _ => []

/-- The merge loop of search funeral facilities (search_info.py lines 237
to 242): keep each document whose page content was not seen before,
walking the merged list in order. -/
def dedup_by_content : List Doc → List String → List Doc
  | [], _ => []
  | d :: ds, seen =>
    if d.page_content ∈ seen then dedup_by_content ds seen
    else d :: dedup_by_content ds (d.page_content :: seen)

/-- Search funeral facilities (search_info.py lines 183 to 245): a missing
regions list falls back to the single optional region; the total budget 10
is floor-divided across the regions; the sub-searches run independently
and their results are merged with content deduplication.  An empty
explicit regions list raises a division by zero in the source and is
outside this model, which only receives at least one region. -/
def search_funeral_facilities
    (searchF : String → Nat → Option RegionFilter → Except String (List Doc))
    (close_matches : String → List String → Nat → List String)
    (all_regions : List String) (query : String) (region : Option String)
    (regions : Option (List String)) : List Doc :=
  match regions with
  | none =>
    dedup_by_content
      (([region] : List (Option String)).flatMap
        (facility_sub_search searchF close_matches all_regions query
          (10 / ([region] : List (Option String)).length))) []
  | some l =>
    dedup_by_content
      ((l.map some).flatMap
        (facility_sub_search searchF close_matches all_regions query
          (10 / (l.map some).length))) []

/-! ## Helper lemmas -/

lemma setIf_apply (m : Profile) (f : String) (v : Option String) (k : String) :
    setIf m f v k = if truthyO v ∧ k = f then v else m k := by
  unfold setIf
  by_cases hv : truthyO v
  · by_cases hk : k = f
    · simp [hv, hk]
    · simp [hv, hk]
  · simp [hv]

lemma normalize_profile_apply (p c : Profile) (k : String) :
    normalize_profile p c k =
      if truthyO (emotionV p) ∧ k = "emotion" then emotionV p
      else if truthyO (activityRangeV p) ∧ k = "activity_range" then activityRangeV p
      else if truthyO (mobilityV p) ∧ k = "mobility" then mobilityV p
      else if truthyO (nameV p) ∧ k = "name" then nameV p
      else mergeP c p k := by
  unfold normalize_profile
  simp only [setIf_apply]

lemma fdiv_day_buckets (e : Int) (he : 0 ≤ e) :
    (e < 86400 → Int.fdiv e 86400 = 0) ∧
    (86400 ≤ e → e < 172800 → Int.fdiv e 86400 = 1) ∧
    (172800 ≤ e → Int.fdiv e 86400 ≠ 0 ∧ Int.fdiv e 86400 ≠ 1) := by
  have h : Int.fdiv e 86400 = e / 86400 := Int.fdiv_eq_ediv e (by norm_num)
  rw [h]
  refine ⟨fun h1 => by omega, fun h1 h2 => by omega,
    fun h1 => ⟨by omega, by omega⟩⟩

lemma get_welcome_message_some (profile : Profile) (t now : Int) :
    get_welcome_message profile (some t) now =
      (if Int.fdiv (now - t) 86400 = 0 then
        welcome_title profile ++ " 다시 오셨군요. 이야기를 계속 나눠볼까요?"
      else if Int.fdiv (now - t) 86400 = 1 then
        welcome_title profile ++ " 밤사이 편안하셨나요?"
      else welcome_title profile ++ " 오랜만에 오셨네요!") := rfl

lemma run_info_flow_ok_of_total (llm : List Msg → Except String AIMsg)
    (tools : ToolRegistry) (history : List Msg) (text : String)
    (htotal : ∀ ms, ∃ a, llm ms = .ok a) :
    ∃ v, (run_info_flow llm tools history text).1 = .ok v := by
  obtain ⟨a, ha⟩ := htotal (info_messages history text)
  obtain ⟨b, hb⟩ := htotal (info_messages2 tools history text a)
  by_cases he : a.tool_calls.isEmpty
  · refine ⟨a.content, ?_⟩
    unfold run_info_flow
    rw [ha]
    simp [he]
  · refine ⟨b.content, ?_⟩
    unfold run_info_flow
    rw [ha]
    simp [he, hb]

lemma join_strings_length_ge (sep x : String) (xs : List String) :
    x.length ≤ (join_strings sep (x :: xs)).length := by
  cases xs with
  | nil => simp [join_strings]
  | cons y ys =>
    show x.length ≤ (x ++ sep ++ join_strings sep (y :: ys)).length
    simp only [String.length_append]
    omega

lemma format_activity_length (p : String × String) :
    2 ≤ (format_activity p).length := by
  unfold format_activity
  simp only [String.length_append]
  have h : ("- ").length = 2 := rfl
  omega

lemma join_formatted_ne_empty (l : List (String × String)) (hl : l ≠ []) :
    join_strings "\n" (l.map format_activity) ≠ "" := by
  cases l with
  | nil => exact absurd rfl hl
  | cons p ps =>
    intro hjoin
    have h1 : 2 ≤ (join_strings "\n" (format_activity p :: ps.map format_activity)).length :=
      le_trans (format_activity_length p) (join_strings_length_ge "\n" _ _)
    rw [show ((p :: ps).map format_activity) =
      format_activity p :: ps.map format_activity from rfl] at hjoin
    rw [hjoin] at h1
    exact absurd h1 (by decide)

lemma select_activities_not_already (al : List String) (ms : List ActMeta) :
    ∀ seen acc x, x ∈ ((select_activities al ms seen acc).1).map Prod.fst →
      x ∈ acc.map Prod.fst ∨ x ∉ al := by
  induction ms with
  | nil =>
    intro seen acc x hx
    exact Or.inl hx
  | cons m ms ih =>
    intro seen acc x hx
    simp only [select_activities] at hx
    by_cases hc : activity_label m = "" ∨ activity_label m ∈ al ∨
        activity_label m ∈ seen
    · rw [if_pos hc] at hx
      exact ih seen acc x hx
    · rw [if_neg hc] at hx
      by_cases h3 : 3 ≤ (acc ++ [(activity_label m, m.feeling_tags)]).length
      · rw [if_pos h3] at hx
        simp only [List.map_append, List.map_cons, List.map_nil,
          List.mem_append, List.mem_singleton] at hx
        rcases hx with h | h
        · exact Or.inl h
        · subst h
          exact Or.inr (fun hmem => hc (Or.inr (Or.inl hmem)))
      · rw [if_neg h3] at hx
        rcases ih (activity_label m :: seen)
            (acc ++ [(activity_label m, m.feeling_tags)]) x hx with h | h
        · simp only [List.map_append, List.map_cons, List.map_nil,
            List.mem_append, List.mem_singleton] at h
          rcases h with h | h
          · exact Or.inl h
          · subst h
            exact Or.inr (fun hmem => hc (Or.inr (Or.inl hmem)))
        · exact Or.inr h

lemma select_activities_seen_mono (al : List String) (ms : List ActMeta) :
    ∀ seen acc x, x ∈ seen → x ∈ (select_activities al ms seen acc).2 := by
  induction ms with
  | nil =>
    intro seen acc x hx
    exact hx
  | cons m ms ih =>
    intro seen acc x hx
    simp only [select_activities]
    by_cases hc : activity_label m = "" ∨ activity_label m ∈ al ∨
        activity_label m ∈ seen
    · rw [if_pos hc]
      exact ih seen acc x hx
    · rw [if_neg hc]
      by_cases h3 : 3 ≤ (acc ++ [(activity_label m, m.feeling_tags)]).length
      · rw [if_pos h3]
        exact List.mem_cons_of_mem _ hx
      · rw [if_neg h3]
        exact ih _ _ x (List.mem_cons_of_mem _ hx)

lemma select_activities_in_seen (al : List String) (ms : List ActMeta) :
    ∀ seen acc x, x ∈ ((select_activities al ms seen acc).1).map Prod.fst →
      x ∈ acc.map Prod.fst ∨ x ∈ (select_activities al ms seen acc).2 := by
  induction ms with
  | nil =>
    intro seen acc x hx
    exact Or.inl hx
  | cons m ms ih =>
    intro seen acc x hx
    simp only [select_activities] at hx ⊢
    by_cases hc : activity_label m = "" ∨ activity_label m ∈ al ∨
        activity_label m ∈ seen
    · rw [if_pos hc] at hx ⊢
      exact ih seen acc x hx
    · rw [if_neg hc] at hx ⊢
      by_cases h3 : 3 ≤ (acc ++ [(activity_label m, m.feeling_tags)]).length
      · rw [if_pos h3] at hx ⊢
        simp only [List.map_append, List.map_cons, List.map_nil,
          List.mem_append, List.mem_singleton] at hx
        rcases hx with h | h
        · exact Or.inl h
        · subst h
          exact Or.inr (List.mem_cons_self _ _)
      · rw [if_neg h3] at hx ⊢
        rcases ih (activity_label m :: seen)
            (acc ++ [(activity_label m, m.feeling_tags)]) x hx with h | h
        · simp only [List.map_append, List.map_cons, List.map_nil,
            List.mem_append, List.mem_singleton] at h
          rcases h with h | h
          · exact Or.inl h
          · subst h
            exact Or.inr (select_activities_seen_mono al ms _ _ _
              (List.mem_cons_self _ _))
        · exact Or.inr h

lemma recommend_tool_sentinel (res_matches : List ActMeta) (al : List String)
    (h : (select_activities al res_matches [] []).1 = []) :
    (recommend_activities_tool res_matches al).1 = NO_NEW_ACTIVITY_MESSAGE := by
  unfold recommend_activities_tool
  rw [if_pos (by rw [h]; rfl)]

lemma recommend_tool_output_ne_empty (res_matches : List ActMeta)
    (al : List String) :
    (recommend_activities_tool res_matches al).1 ≠ "" := by
  unfold recommend_activities_tool
  by_cases hsel : (select_activities al res_matches [] []).1.isEmpty
  · rw [if_pos hsel]
    show NO_NEW_ACTIVITY_MESSAGE ≠ ""
    decide
  · rw [if_neg hsel]
    exact join_formatted_ne_empty _
      (fun hnil => hsel (by rw [hnil]; rfl))

lemma select_questions_acc (al : List String) (ms : List QMeta) :
    ∀ seen qs, ∃ t, (select_questions al ms seen qs).1 = qs ++ t := by
  induction ms with
  | nil =>
    intro seen qs
    exact ⟨[], by simp [select_questions]⟩
  | cons m ms ih =>
    intro seen qs
    simp only [select_questions]
    by_cases hc : m.question_text = "" ∨ m.question_text ∈ al ∨
        m.question_text ∈ seen
    · rw [if_pos hc]
      exact ih seen qs
    · rw [if_neg hc]
      by_cases h3 : 3 ≤ (qs ++ [format_question m]).length
      · rw [if_pos h3]
        exact ⟨[format_question m], rfl⟩
      · rw [if_neg h3]
        obtain ⟨t, ht⟩ := ih (m.question_text :: seen) (qs ++ [format_question m])
        exact ⟨[format_question m] ++ t, by rw [ht, List.append_assoc]⟩

lemma select_questions_nil (al : List String) (ms : List QMeta) :
    ∀ seen qs, (select_questions al ms seen qs).1 = [] →
      qs = [] ∧ (select_questions al ms seen qs).2 = seen := by
  induction ms with
  | nil =>
    intro seen qs h
    exact ⟨h, rfl⟩
  | cons m ms ih =>
    intro seen qs h
    simp only [select_questions] at h ⊢
    by_cases hc : m.question_text = "" ∨ m.question_text ∈ al ∨
        m.question_text ∈ seen
    · rw [if_pos hc] at h ⊢
      exact ih seen qs h
    · rw [if_neg hc] at h ⊢
      by_cases h3 : 3 ≤ (qs ++ [format_question m]).length
      · rw [if_pos h3] at h
        exact absurd h (by simp)
      · rw [if_neg h3] at h
        obtain ⟨t, ht⟩ := select_questions_acc al ms
          (m.question_text :: seen) (qs ++ [format_question m])
        rw [ht] at h
        have h1 := (List.append_eq_nil.mp h).1
        have h2 := (List.append_eq_nil.mp h1).2
        simp at h2

lemma dedup_notin_seen (l : List Doc) :
    ∀ seen x, x ∈ (dedup_by_content l seen).map (fun d => d.page_content) →
      x ∉ seen := by
  induction l with
  | nil =>
    intro seen x hx
    simp [dedup_by_content] at hx
  | cons c ds ih =>
    intro seen x hx
    simp only [dedup_by_content] at hx
    by_cases hmem : c.page_content ∈ seen
    · rw [if_pos hmem] at hx
      exact ih seen x hx
    · rw [if_neg hmem] at hx
      simp only [List.map_cons, List.mem_cons] at hx
      rcases hx with h | h
      · subst h
        exact hmem
      · intro hxs
        exact ih _ x h (List.mem_cons_of_mem _ hxs)

lemma dedup_nodup (l : List Doc) :
    ∀ seen, ((dedup_by_content l seen).map (fun d => d.page_content)).Nodup := by
  induction l with
  | nil =>
    intro seen
    simp [dedup_by_content]
  | cons c ds ih =>
    intro seen
    simp only [dedup_by_content]
    by_cases hmem : c.page_content ∈ seen
    · rw [if_pos hmem]
      exact ih seen
    · rw [if_neg hmem]
      simp only [List.map_cons, List.nodup_cons]
      refine ⟨?_, ih _⟩
      intro hc
      exact dedup_notin_seen ds _ _ hc (List.mem_cons_self _ _)

lemma dedup_sublist (l : List Doc) :
    ∀ seen, List.Sublist (dedup_by_content l seen) l := by
  induction l with
  | nil =>
    intro seen
    simp [dedup_by_content]
  | cons c ds ih =>
    intro seen
    simp only [dedup_by_content]
    by_cases hmem : c.page_content ∈ seen
    · rw [if_pos hmem]
      exact List.Sublist.cons c (ih seen)
    · rw [if_neg hmem]
      exact List.Sublist.cons₂ c (ih _)

lemma dedup_complete (l : List Doc) :
    ∀ seen x, x ∈ l.map (fun d => d.page_content) →
      x ∈ (dedup_by_content l seen).map (fun d => d.page_content) ∨ x ∈ seen := by
  induction l with
  | nil =>
    intro seen x hx
    simp at hx
  | cons c ds ih =>
    intro seen x hx
    simp only [List.map_cons, List.mem_cons] at hx
    simp only [dedup_by_content]
    by_cases hmem : c.page_content ∈ seen
    · rw [if_pos hmem]
      rcases hx with h | h
      · subst h
        exact Or.inr hmem
      · exact ih seen x h
    · rw [if_neg hmem]
      rcases hx with h | h
      · subst h
        exact Or.inl (by simp)
      · rcases ih (c.page_content :: seen) x h with h2 | h2
        · exact Or.inl (by simp only [List.map_cons, List.mem_cons]; exact Or.inr h2)
        · rcases List.mem_cons.mp h2 with h3 | h3
          · subst h3
            exact Or.inl (by simp)
          · exact Or.inr h3

lemma dedup_first_occurrence (l : List Doc) :
    ∀ seen d, d ∈ dedup_by_content l seen →
      l.find? (fun x => x.page_content == d.page_content) = some d := by
  induction l with
  | nil =>
    intro seen d hd
    simp [dedup_by_content] at hd
  | cons c ds ih =>
    intro seen d hd
    simp only [dedup_by_content] at hd
    by_cases hmem : c.page_content ∈ seen
    · rw [if_pos hmem] at hd
      have hne : d.page_content ∉ seen :=
        dedup_notin_seen ds seen d.page_content
          (List.mem_map_of_mem _ hd)
      have hcd : ¬((fun x => x.page_content == d.page_content) c = true) := by
        simp only [beq_iff_eq]
        intro hc
        exact hne (hc ▸ hmem)
      exact (@List.find?_cons_of_neg _
        (fun x => x.page_content == d.page_content) c ds hcd).trans
        (ih seen d hd)
    · rw [if_neg hmem] at hd
      rcases List.mem_cons.mp hd with h | h
      · subst h
        exact @List.find?_cons_of_pos _
          (fun x => x.page_content == d.page_content) d ds (by simp)
      · have hne : d.page_content ∉ c.page_content :: seen :=
          dedup_notin_seen ds _ d.page_content (List.mem_map_of_mem _ h)
        have hcd : ¬((fun x => x.page_content == d.page_content) c = true) := by
          simp only [beq_iff_eq]
          intro hc
          exact hne (hc ▸ List.mem_cons_self _ _)
        exact (@List.find?_cons_of_neg _
          (fun x => x.page_content == d.page_content) c ds hcd).trans
          (ih _ d h)

/-! ## Claim theorems -/

/-- Claim C9: profile normalization is idempotent: for every raw partial
profile p and every current profile c, normalizing p into the already
normalized result yields the same profile again. -/
theorem claim_C9_normalize_idempotent (p c : Profile) :
    normalize_profile p (normalize_profile p c) = normalize_profile p c := by
  funext k
  rw [normalize_profile_apply, normalize_profile_apply]
  by_cases h1 : truthyO (emotionV p) ∧ k = "emotion"
  · rw [if_pos h1, if_pos h1]
  · rw [if_neg h1, if_neg h1]
    by_cases h2 : truthyO (activityRangeV p) ∧ k = "activity_range"
    · rw [if_pos h2, if_pos h2]
    · rw [if_neg h2, if_neg h2]
      by_cases h3 : truthyO (mobilityV p) ∧ k = "mobility"
      · rw [if_pos h3, if_pos h3]
      · rw [if_neg h3, if_neg h3]
        by_cases h4 : truthyO (nameV p) ∧ k = "name"
        · rw [if_pos h4, if_pos h4]
        · rw [if_neg h4, if_neg h4]
          unfold mergeP
          cases hp : p k with
          | some v => rfl
          | none =>
            rw [normalize_profile_apply]
            rw [if_neg h1, if_neg h2, if_neg h3, if_neg h4]
            unfold mergeP
            rw [hp]

/-- Claim C3: in chat mode a welcome-back greeting is shown iff a last
visit exists, the stored history is nonempty, and the elapsed time strictly
exceeds 30 minutes; the greeting text is a deterministic classification of
elapsed whole days (0 days continue framing, 1 day rested framing, more
than 1 day long-time framing), and with no last-visit record the neutral
first-time greeting is returned. -/
theorem claim_C3_welcome_policy (profile : Profile) (lv : Option Int)
    (h : List ChatMessage) (now : Int) :
    (should_show_welcome "chat" lv h now = true ↔
      ∃ t, lv = some t ∧ h ≠ [] ∧ now - t > 30 * 60) ∧
    (get_welcome_message profile none now =
      "안녕하세요, " ++ welcome_title profile ++ " 오늘은 좀 어떠신가요?") ∧
    (∀ t, lv = some t → 0 ≤ now - t → now - t < 86400 →
      get_welcome_message profile lv now =
        welcome_title profile ++ " 다시 오셨군요. 이야기를 계속 나눠볼까요?") ∧
    (∀ t, lv = some t → 86400 ≤ now - t → now - t < 172800 →
      get_welcome_message profile lv now =
        welcome_title profile ++ " 밤사이 편안하셨나요?") ∧
    (∀ t, lv = some t → 172800 ≤ now - t →
      get_welcome_message profile lv now =
        welcome_title profile ++ " 오랜만에 오셨네요!") := by
  refine ⟨?_, rfl, ?_, ?_, ?_⟩
  · unfold should_show_welcome WELCOME_COOLDOWN_MINUTES
    cases lv with
    | none => simp
    | some t =>
      cases h with
      | nil => simp
      | cons a l =>
        simp only [if_neg (by simp : ¬("chat" ≠ "chat"))]
        constructor
        · intro hd
          exact ⟨t, rfl, by simp, by exact_mod_cast of_decide_eq_true hd⟩
        · rintro ⟨t', ht', _, hgt⟩
          cases Option.some.inj ht'
          exact decide_eq_true (by exact_mod_cast hgt)
  · intro t ht h0 h1
    subst ht
    rw [get_welcome_message_some, if_pos ((fdiv_day_buckets (now - t) h0).1 h1)]
  · intro t ht h1 h2
    subst ht
    have hd := (fdiv_day_buckets (now - t) (by omega)).2.1 h1 h2
    rw [get_welcome_message_some, hd]
    norm_num
  · intro t ht h2
    subst ht
    have hd := (fdiv_day_buckets (now - t) (by omega)).2.2 h2
    rw [get_welcome_message_some, if_neg hd.1, if_neg hd.2]

/-- Witness for claim C3 at a concrete input: a user with no stored name,
last visit 90000 seconds ago (one whole day), gets the rested greeting. -/
theorem claim_C3_welcome_policy_witness :
    get_welcome_message (fun _ => none) (some 0) 90000 =
      "님 밤사이 편안하셨나요?" := by
  have hmain := (claim_C3_welcome_policy (fun _ => none) (some 0) [] 90000).2.2.2.1
    0 rfl (by decide) (by decide)
  rw [hmain]
  rfl

/-- Claim C1: the manual single-pass executor performs at most 2 model
invocations per info turn: one initial call; a second call exactly when the
first response requested tool calls; and if the second response itself
requests tools that request is ignored and its text is returned as-is. -/
theorem claim_C1_single_pass (llm : List Msg → Except String AIMsg)
    (tools : ToolRegistry) (history : List Msg) (text : String) :
    (run_info_flow llm tools history text).2.length ≤ 2 ∧
    (∀ a, llm (info_messages history text) = .ok a →
      ((run_info_flow llm tools history text).2.length = 2 ↔
        a.tool_calls ≠ [])) ∧
    (∀ a b, llm (info_messages history text) = .ok a → a.tool_calls ≠ [] →
      llm (info_messages2 tools history text a) = .ok b →
      (run_info_flow llm tools history text).1 = .ok b.content) := by
  unfold run_info_flow
  cases hllm : llm (info_messages history text) with
  | error e =>
    refine ⟨by simp, ?_, ?_⟩
    · intro a ha
      cases ha
    · intro a b ha _ _
      cases ha
  | ok a =>
    by_cases he : a.tool_calls.isEmpty
    · refine ⟨by simp [he], ?_, ?_⟩
      · intro a' ha'
        cases Except.ok.inj ha'
        constructor
        · intro hlen
          simp [he] at hlen
        · intro hne
          exact absurd (List.isEmpty_iff.mp he) hne
      · intro a' b ha' hne _
        cases Except.ok.inj ha'
        exact absurd (List.isEmpty_iff.mp he) hne
    · simp only [he, if_false, Bool.false_eq_true]
      cases hllm2 : llm (info_messages2 tools history text a) with
      | error e =>
        refine ⟨by simp, ?_, ?_⟩
        · intro a' ha'
          cases Except.ok.inj ha'
          constructor
          · intro _ hc
            exact he (by simp [hc])
          · intro _
            rfl
        · intro a' b ha' hne hb
          cases Except.ok.inj ha'
          rw [hllm2] at hb
          cases hb
      | ok b =>
        refine ⟨by simp, ?_, ?_⟩
        · intro a' ha'
          cases Except.ok.inj ha'
          constructor
          · intro _ hc
            exact he (by simp [hc])
          · intro _
            rfl
        · intro a' b' ha' hne hb
          cases Except.ok.inj ha'
          rw [hllm2] at hb
          cases Except.ok.inj hb
          rfl

/-- Witness for claim C1 at a concrete input: the first response requests a
tool, the second response also requests a tool, yet exactly 2 invocations
happen and the second response text is returned as-is. -/
theorem claim_C1_single_pass_witness :
    (run_info_flow
      (fun ms => if ms.length = 2
        then Except.ok ⟨"first", [⟨"lookup", [], "c1"⟩]⟩
        else Except.ok ⟨"second", [⟨"again", [], "c2"⟩]⟩)
      (fun _ => none) [] "q").1 = Except.ok "second" ∧
    (run_info_flow
      (fun ms => if ms.length = 2
        then Except.ok ⟨"first", [⟨"lookup", [], "c1"⟩]⟩
        else Except.ok ⟨"second", [⟨"again", [], "c2"⟩]⟩)
      (fun _ => none) [] "q").2.length = 2 := by
  constructor
  · exact (claim_C1_single_pass
      (fun ms => if ms.length = 2
        then Except.ok ⟨"first", [⟨"lookup", [], "c1"⟩]⟩
        else Except.ok ⟨"second", [⟨"again", [], "c2"⟩]⟩)
      (fun _ => none) [] "q").2.2
      ⟨"first", [⟨"lookup", [], "c1"⟩]⟩ ⟨"second", [⟨"again", [], "c2"⟩]⟩
      rfl (by decide) rfl
  · exact ((claim_C1_single_pass
      (fun ms => if ms.length = 2
        then Except.ok ⟨"first", [⟨"lookup", [], "c1"⟩]⟩
        else Except.ok ⟨"second", [⟨"again", [], "c2"⟩]⟩)
      (fun _ => none) [] "q").2.1
      ⟨"first", [⟨"lookup", [], "c1"⟩]⟩ rfl).mpr (by decide)

/-- Claim C6: during manual tool execution, an unknown tool name yields the
synthetic not-found tool result and a raising tool yields the textual
failure result; one tool message is produced per requested call, so the
loop continues and nothing propagates. -/
theorem claim_C6_tool_faults (tools : ToolRegistry) (calls : List ToolCallReq) :
    (exec_tool_calls tools calls).length = calls.length ∧
    (∀ call ∈ calls, tools call.name = none →
      exec_tool_call tools call =
        ⟨"\x27" ++ call.name ++ "\x27 도구를 찾을 수 없습니다.", call.id⟩) ∧
    (∀ call ∈ calls, ∀ f e, tools call.name = some f →
      f call.args = .error e →
      exec_tool_call tools call = ⟨"도구 실행 실패: " ++ e, call.id⟩) := by
  refine ⟨List.length_map _ _, ?_, ?_⟩
  · intro call _ hnone
    unfold exec_tool_call
    rw [hnone]
  · intro call _ f e hf herr
    unfold exec_tool_call
    rw [hf]
    simp only [herr]

/-- Witness for claim C6 at a concrete input: a registry holding one broken
tool; an unknown name and a raising tool both produce tool results. -/
theorem claim_C6_tool_faults_witness :
    exec_tool_call
        (fun n => if n = "broken" then some (fun _ => Except.error "boom") else none)
        ⟨"missing", [], "i1"⟩ =
      ⟨"\x27missing\x27 도구를 찾을 수 없습니다.", "i1"⟩ ∧
    exec_tool_call
        (fun n => if n = "broken" then some (fun _ => Except.error "boom") else none)
        ⟨"broken", [], "i2"⟩ = ⟨"도구 실행 실패: boom", "i2"⟩ := by
  constructor
  · have h := (claim_C6_tool_faults
      (fun n => if n = "broken" then some (fun _ => Except.error "boom") else none)
      [⟨"missing", [], "i1"⟩]).2.1 ⟨"missing", [], "i1"⟩ (by simp) rfl
    exact h.trans rfl
  · have h := (claim_C6_tool_faults
      (fun n => if n = "broken" then some (fun _ => Except.error "boom") else none)
      [⟨"broken", [], "i2"⟩]).2.2 ⟨"broken", [], "i2"⟩ (by simp)
      (fun _ => Except.error "boom") "boom" rfl rfl
    exact h.trans rfl

/-- Claim C5: any fault while driving the chat-mode auto-looping discipline
is converted to the fixed user-facing error string and the session store is
left untouched: no history entry of the faulted attempt is committed. -/
theorem claim_C5_chat_fault_containment (llm : List Msg → Except String AIMsg)
    (tools : ToolRegistry) (e : String) (now : Int) (store : Store)
    (text : String) :
    process_user_message llm tools (.error e) now store text "chat" =
      .ok (GRAPH_ERROR_MESSAGE, store) := rfl

/-- Claim C4 counterexample: in info mode a model-invocation fault is not
caught anywhere, so process user message propagates it instead of
returning a string: the claim that both modes never raise is false. -/
theorem claim_C4_counterexample :
    process_user_message (fun _ => Except.error "LLM 연결 실패")
      (fun _ => none) (Except.ok "reply") 0
      ⟨fun _ => none, none, []⟩ "질문" "info" =
    Except.error "LLM 연결 실패" := rfl

/-- Claim C4 amended: in chat mode (any mode other than info) process user
message always returns a string, never an error; in info mode it returns a
string provided the model invocations themselves do not raise (tool faults
are still contained), but a model fault propagates. -/
theorem claim_C4_amended_no_raise (llm : List Msg → Except String AIMsg)
    (tools : ToolRegistry) (g : Except String String) (now : Int)
    (store : Store) (text : String) (mode : String) :
    (mode ≠ "info" →
      ∃ s st, process_user_message llm tools g now store text mode = .ok (s, st)) ∧
    ((∀ ms, ∃ a, llm ms = .ok a) →
      ∃ s st, process_user_message llm tools g now store text "info" = .ok (s, st)) := by
  constructor
  · intro hmode
    unfold process_user_message
    rw [if_neg hmode]
    cases g with
    | error e => exact ⟨GRAPH_ERROR_MESSAGE, store, rfl⟩
    | ok rt => exact ⟨_, _, rfl⟩
  · intro htotal
    obtain ⟨v, hv⟩ := run_info_flow_ok_of_total llm tools
      (history_messages store.history) text htotal
    unfold process_user_message
    rw [if_pos rfl, hv]
    exact ⟨_, _, rfl⟩

/-- Witness for claim C4 amended at concrete inputs: a chat turn with a
healthy graph returns a string, and an info turn with a healthy model
returns a string. -/
theorem claim_C4_amended_no_raise_witness :
    (∃ s st, process_user_message (fun _ => Except.error "down") (fun _ => none)
      (Except.ok "안녕하세요") 0 ⟨fun _ => none, none, []⟩ "hi" "chat" =
        Except.ok (s, st)) ∧
    (∃ s st, process_user_message (fun _ => Except.ok ⟨"답변", []⟩) (fun _ => none)
      (Except.error "down") 0 ⟨fun _ => none, none, []⟩ "hi" "info" =
        Except.ok (s, st)) := by
  constructor
  · exact (claim_C4_amended_no_raise (fun _ => Except.error "down") (fun _ => none)
      (Except.ok "안녕하세요") 0 ⟨fun _ => none, none, []⟩ "hi" "chat").1
      (by decide)
  · exact (claim_C4_amended_no_raise (fun _ => Except.ok ⟨"답변", []⟩) (fun _ => none)
      (Except.error "down") 0 ⟨fun _ => none, none, []⟩ "hi" "info").2
      (fun _ => ⟨⟨"답변", []⟩, rfl⟩)

/-- Claim C2: two sequential activity-recommendation calls for the same
user, emotion and mobility (hence the same match list, since the query is a
deterministic function of emotion and mobility) never overlap: no label
selected by the second call was selected by the first; when the eligible
pool is exhausted the second call returns the nothing-new sentinel, and its
output is never the empty string.  The last clause records that the full
pipeline feeds the tool the match list determined by emotion and mobility. -/
theorem claim_C2_no_repeat (res_matches : List ActMeta) (already : List String) :
    (∀ x, x ∈ picked_labels res_matches (recommend_activities_tool res_matches already).2 →
      x ∉ picked_labels res_matches already) ∧
    (picked_labels res_matches (recommend_activities_tool res_matches already).2 = [] →
      (recommend_activities_tool res_matches
        (recommend_activities_tool res_matches already).2).1 =
        NO_NEW_ACTIVITY_MESSAGE) ∧
    (recommend_activities_tool res_matches
      (recommend_activities_tool res_matches already).2).1 ≠ "" ∧
    (∀ searchA emotion_map mobility_map user_emotion mobility_status,
      recommend_activities_full searchA emotion_map mobility_map
          user_emotion mobility_status already =
        recommend_activities_tool
          (activities_matches searchA emotion_map mobility_map
            user_emotion mobility_status) already) := by
  refine ⟨?_, ?_, ?_, ?_⟩
  · intro x hx2 hx1
    rcases select_activities_not_already
        ((recommend_activities_tool res_matches already).2) res_matches [] [] x hx2 with h | h
    · simp at h
    · apply h
      unfold recommend_activities_tool
      by_cases hsel : (select_activities already res_matches [] []).1.isEmpty
      · exfalso
        unfold picked_labels at hx1
        rw [List.isEmpty_iff.mp hsel] at hx1
        simp at hx1
      · rw [if_neg hsel]
        show x ∈ already ++ (select_activities already res_matches [] []).2
        rcases select_activities_in_seen already res_matches [] [] x hx1 with h2 | h2
        · simp at h2
        · exact List.mem_append_right _ h2
  · intro hp
    exact recommend_tool_sentinel res_matches _ (List.map_eq_nil_iff.mp hp)
  · exact recommend_tool_output_ne_empty res_matches _
  · intro searchA emotion_map mobility_map user_emotion mobility_status
    rfl

/-- Witness for claim C2 at a concrete input: one eligible activity, a
first call that consumes it, and a second call that returns the sentinel. -/
theorem claim_C2_no_repeat_witness :
    (recommend_activities_tool [⟨"산책", "", "평온"⟩]
      (recommend_activities_tool [⟨"산책", "", "평온"⟩] []).2).1 =
      NO_NEW_ACTIVITY_MESSAGE := by
  exact (claim_C2_no_repeat [⟨"산책", "", "평온"⟩] []).2.1 (by decide)

/-- Claim C10: the empathy-question tool records exactly the
freshness-filter survivors in the asked set; in particular when the filter
eliminates every candidate but raw candidates exist, the raw top 3 are
returned, nothing is recorded, and an immediately repeated call returns
the same fallback output. -/
theorem claim_C10_fallback_not_recorded (res_matches : List QMeta)
    (already : List String) :
    ((search_empathy_questions_tool res_matches already).2 =
      already ++ (select_questions already res_matches [] []).2) ∧
    ((select_questions already res_matches [] []).1 = [] → res_matches ≠ [] →
      ((search_empathy_questions_tool res_matches already).1 =
          join_strings "\n" ((res_matches.take 3).map format_question) ∧
        (search_empathy_questions_tool res_matches already).2 = already ∧
        search_empathy_questions_tool res_matches
            ((search_empathy_questions_tool res_matches already).2) =
          search_empathy_questions_tool res_matches already)) := by
  constructor
  · rfl
  · intro hsel hm
    have hseen : (select_questions already res_matches [] []).2 = [] :=
      (select_questions_nil already res_matches [] [] hsel).2
    have hcond : ((select_questions already res_matches [] []).1.isEmpty = true) ∧
        ¬(res_matches.isEmpty = true) := by
      constructor
      · rw [hsel]
        rfl
      · intro hM
        exact hm (List.isEmpty_iff.mp hM)
    have hout : empathy_questions_output res_matches already =
        (res_matches.take 3).map format_question := by
      unfold empathy_questions_output
      rw [if_pos hcond]
    have hne : ¬(((res_matches.take 3).map format_question).isEmpty = true) := by
      cases res_matches with
      | nil => exact absurd rfl hm
      | cons q qs =>
        intro hc
        simp at hc
    have h2 : (search_empathy_questions_tool res_matches already).2 = already := by
      show already ++ (select_questions already res_matches [] []).2 = already
      rw [hseen, List.append_nil]
    refine ⟨?_, h2, ?_⟩
    · show (if (empathy_questions_output res_matches already).isEmpty then
          NO_QUESTION_MESSAGE
        else join_strings "\n" (empathy_questions_output res_matches already)) = _
      rw [hout, if_neg hne]
    · rw [h2]

/-- Witness for claim C10 at a concrete input: the single candidate was
already asked, so the filter removes it, the raw top 3 fallback is
returned, and the asked set is unchanged. -/
theorem claim_C10_fallback_not_recorded_witness :
    (search_empathy_questions_tool [⟨"요즘 어떠세요", "회고"⟩] ["요즘 어떠세요"]).1 =
      "- 요즘 어떠세요 (의도: 회고)" ∧
    (search_empathy_questions_tool [⟨"요즘 어떠세요", "회고"⟩] ["요즘 어떠세요"]).2 =
      ["요즘 어떠세요"] := by
  have h := (claim_C10_fallback_not_recorded [⟨"요즘 어떠세요", "회고"⟩]
    ["요즘 어떠세요"]).2 (by decide) (by decide)
  exact ⟨h.1.trans (by decide), h.2.1⟩

/-- Claim C7: a facilities search over n regions (1 to 3) gives every
per-region sub-search the budget 10 divided by n (floor), runs the
sub-searches independently (the merged list is the concatenation of the
per-region results), and the merged output carries no two entries with the
same page content, keeping the first-seen occurrence in first-seen order
(the output is a sublist of the merged list, every merged content survives,
and each kept document is the first of its content). -/
theorem claim_C7_facility_budget_dedup
    (searchF : String → Nat → Option RegionFilter → Except String (List Doc))
    (close_matches : String → List String → Nat → List String)
    (all_regions : List String) (query : String) (region : Option String)
    (rl : List String) (h1 : 1 ≤ rl.length) (h3 : rl.length ≤ 3) :
    search_funeral_facilities searchF close_matches all_regions query region
        (some rl) =
      dedup_by_content
        ((rl.map some).flatMap
          (facility_sub_search searchF close_matches all_regions query
            (10 / rl.length))) [] ∧
    ((search_funeral_facilities searchF close_matches all_regions query region
        (some rl)).map (fun d => d.page_content)).Nodup ∧
    List.Sublist
      (search_funeral_facilities searchF close_matches all_regions query region
        (some rl))
      ((rl.map some).flatMap
        (facility_sub_search searchF close_matches all_regions query
          (10 / rl.length))) ∧
    (∀ d ∈ (rl.map some).flatMap
        (facility_sub_search searchF close_matches all_regions query
          (10 / rl.length)),
      d.page_content ∈
        (search_funeral_facilities searchF close_matches all_regions query region
          (some rl)).map (fun d => d.page_content)) ∧
    (∀ d ∈ search_funeral_facilities searchF close_matches all_regions query region
        (some rl),
      ((rl.map some).flatMap
        (facility_sub_search searchF close_matches all_regions query
          (10 / rl.length))).find?
        (fun x => x.page_content == d.page_content) = some d) ∧
    (rl.length = 3 → 10 / rl.length = 3) := by
  have hkey : search_funeral_facilities searchF close_matches all_regions query
      region (some rl) =
      dedup_by_content
        ((rl.map some).flatMap
          (facility_sub_search searchF close_matches all_regions query
            (10 / rl.length))) [] := by
    show dedup_by_content
        ((rl.map some).flatMap
          (facility_sub_search searchF close_matches all_regions query
            (10 / (rl.map some).length))) [] = _
    rw [List.length_map]
  refine ⟨hkey, ?_, ?_, ?_, ?_, ?_⟩
  · rw [hkey]
    exact dedup_nodup _ _
  · rw [hkey]
    exact dedup_sublist _ _
  · intro d hd
    rw [hkey]
    rcases dedup_complete
        ((rl.map some).flatMap
          (facility_sub_search searchF close_matches all_regions query
            (10 / rl.length))) [] d.page_content
        (List.mem_map_of_mem _ hd) with h | h
    · exact h
    · simp at h
  · intro d hd
    rw [hkey] at hd
    exact dedup_first_occurrence _ _ _ hd
  · intro h
    rw [h]

/-- Witness for claim C7 at a concrete input: 3 regions, a backend that
returns the same two documents for every region; the deduplicated output
has no repeated content, and the per-region budget is 10 divided by 3. -/
theorem claim_C7_facility_budget_dedup_witness :
    ((search_funeral_facilities
        (fun _ _ _ => Except.ok [⟨"시설A", "m"⟩, ⟨"시설B", "m"⟩])
        (fun _ _ _ => []) [] "질의" none
        (some ["서울", "부산", "대구"])).map (fun d => d.page_content)).Nodup ∧
    (10 / (["서울", "부산", "대구"] : List String).length = 3) := by
  constructor
  · exact (claim_C7_facility_budget_dedup
      (fun _ _ _ => Except.ok [⟨"시설A", "m"⟩, ⟨"시설B", "m"⟩])
      (fun _ _ _ => []) [] "질의" none ["서울", "부산", "대구"]
      (by decide) (by decide)).2.1
  · exact (claim_C7_facility_budget_dedup
      (fun _ _ _ => Except.ok [⟨"시설A", "m"⟩, ⟨"시설B", "m"⟩])
      (fun _ _ _ => []) [] "질의" none ["서울", "부산", "대구"]
      (by decide) (by decide)).2.2.2.2.2 rfl

/-- Claim C8: region resolution runs the containment pass first and
consults the similarity pass only when containment finds nothing; a
resolution to exactly one canonical region constrains the ordinance filter
by direct equality (not a dollar-in clause); no resolution leaves the
search unfiltered by region; and the ordinance search applies exactly this
filter to the external similarity search. -/
theorem claim_C8_region_resolution
    (searchF : String → Nat → OrdFilter → List Doc)
    (close_matches : String → List String → Nat → List String)
    (region_list : List String) (u : String) (n : Nat) :
    (containment_matches u region_list n ≠ [] →
      find_matching_regions close_matches u region_list n =
        some (containment_matches u region_list n)) ∧
    (containment_matches u region_list n = [] →
      find_matching_regions close_matches u region_list n =
        (if (close_matches u region_list n).isEmpty then none
         else some (close_matches u region_list n))) ∧
    (∀ r m, r ≠ "" →
      find_matching_regions close_matches r region_list 3 = some [m] →
      region_filter_dict close_matches region_list 3 (some r) =
        some (RegionFilter.eq m)) ∧
    (∀ r, r ≠ "" →
      find_matching_regions close_matches r region_list 3 = none →
      region_filter_dict close_matches region_list 3 (some r) = none) ∧
    (∀ query region,
      search_public_funeral_ordinance searchF close_matches region_list
          query region =
        searchF query 3
          ⟨"Public_Funeral_Ordinance",
            region_filter_dict close_matches region_list 3 region⟩) := by
  refine ⟨?_, ?_, ?_, ?_, ?_⟩
  · intro hne
    unfold find_matching_regions
    rw [if_neg (fun hc => hne (List.isEmpty_iff.mp hc))]
  · intro hnil
    unfold find_matching_regions
    rw [hnil]
    rfl
  · intro r m hr hfind
    show (if r = "" then none
      else match find_matching_regions close_matches r region_list 3 with
        | none => none
        | some [m0] => some (RegionFilter.eq m0)
        | some ms => some (RegionFilter.inL ms)) = some (RegionFilter.eq m)
    rw [if_neg hr, hfind]
  · intro r hr hfind
    show (if r = "" then none
      else match find_matching_regions close_matches r region_list 3 with
        | none => none
        | some [m0] => some (RegionFilter.eq m0)
        | some ms => some (RegionFilter.inL ms)) = none
    rw [if_neg hr, hfind]
  · intro query region
    rfl

/-- Witness for claim C8 at a concrete input: the end-to-end example region
resolves by containment (the similarity pass returns nothing and is never
needed) to exactly one canonical region, so the filter is direct equality. -/
theorem claim_C8_region_resolution_witness :
    region_filter_dict (fun _ _ _ => [])
      ["서울특별시 강남구", "서울특별시 강북구"] 3 (some "서울특별시 강남구") =
      some (RegionFilter.eq "서울특별시 강남구") := by
  exact (claim_C8_region_resolution (fun _ _ _ => []) (fun _ _ _ => [])
    ["서울특별시 강남구", "서울특별시 강북구"] "서울특별시 강남구" 3).2.2.1
    "서울특별시 강남구" "서울특별시 강남구" (by decide) (by decide)

end SpecProof
